import Mathlib

/-!
Shallow embedding of `greptimedb-ingester-rust`'s streaming insert path
(`src/stream_insert.rs`) and file-based SQL loader (`src/sql_loader.rs`),
with theorems settling the specification's claims about them.

Modelling conventions:
- imported protobuf payload types (`InsertRequest`, `RowInsertRequests`) are
  opaque to this crate; they are embedded as structures carrying an
  uninterpreted tag so equality is decidable;
- the tokio bounded mpsc channel is embedded as an explicit FIFO state
  (`Chan`): `send` appends to the buffer and fails exactly when the
  receiver has been dropped (`closed = true`); a full buffer makes `send`
  suspend, never fail, so capacity does not affect the result value;
- the background task's join outcome and the RPC outcome are inputs to
  `finish`, since they are produced by the environment (tokio scheduler,
  network); `.unwrap()` on the join result is embedded as a distinguished
  `FinishOutcome.panic` value;
- `u32` row counts are carried as `Nat`: the code never computes on them,
  so no overflow wrapping can be observed.
-/

namespace GreptimeIngester

/-- Authorization credential (proto `AuthHeader`); opaque to this crate,
carried and cloned only. -/
structure AuthHeader where
  credential : String
  deriving DecidableEq, Repr

/-- Legacy columnar insert batch (proto `InsertRequest`); contents are not
interpreted by this layer. -/
structure InsertRequest where
  tag : Nat
  deriving DecidableEq, Repr

/-- Proto `InsertRequests`: a vector of legacy insert batches. -/
structure InsertRequests where
  inserts : List InsertRequest
  deriving DecidableEq, Repr

/-- Row-based insert batch (proto `RowInsertRequests`); contents are not
interpreted by this layer. -/
structure RowInsertRequests where
  tag : Nat
  deriving DecidableEq, Repr

/-- Proto `greptime_request::Request`: the payload union. The crate
constructs exactly the `Inserts` and `RowInserts` variants. -/
inductive Request where
  | Inserts (requests : InsertRequests)
  | RowInserts (requests : RowInsertRequests)
  deriving DecidableEq, Repr

/-- Proto `RequestHeader`. The code sets `authorization` and `dbname` and
leaves every other proto field at its default (`..Default::default()`);
none of the defaulted fields is referenced by this crate, so they are not
modelled. -/
structure RequestHeader where
  authorization : Option AuthHeader
  dbname : String
  deriving DecidableEq, Repr

/-- Proto `GreptimeRequest`: the envelope sent over the stream. -/
structure GreptimeRequest where
  header : Option RequestHeader
  request : Option Request
  deriving DecidableEq, Repr

/-- Proto `AffectedRows`; `value` is a `u32` in the source, carried
without arithmetic. -/
structure AffectedRows where
  value : Nat
  deriving DecidableEq, Repr

/-- Proto `greptime_response::Response`: the response payload union.
It has exactly one variant; the source destructures it with an
irrefutable `let` pattern. -/
inductive ResponseOneof where
  | AffectedRows (rows : AffectedRows)
  deriving DecidableEq, Repr

/-- Proto `GreptimeResponse`: the single terminal server response; the
payload field is optional on the wire. -/
structure GreptimeResponse where
  response : Option ResponseOneof
  deriving DecidableEq, Repr

/-- tonic `Response<GreptimeResponse>`; only `into_inner` is used. -/
structure TonicResponse where
  inner : GreptimeResponse
  deriving DecidableEq, Repr

/-- tonic `Response::into_inner`. -/
def TonicResponse.into_inner (r : TonicResponse) : GreptimeResponse :=
  r.inner

/-- tonic `Status`: an RPC transport error, opaque to this crate. -/
structure Status where
  code : Nat
  message : String
  deriving DecidableEq, Repr

/-- tokio `JoinError`: the background task panicked or was cancelled
before producing an outcome. -/
inductive JoinError where
  | panicked
  | cancelled
  deriving DecidableEq, Repr

/-- The error type of `crate::error` as used by these two modules: the
snafu selectors referenced in the source. `TransportStatus` stands for
the variant a tonic `Status` is converted into by the `?` operator. -/
inductive Error where
  | ClientStreaming (err_msg : String)
  | IllegalDatabaseResponse (err_msg : String)
  | TransportStatus (status : Status)
  | ConnectMysql (url : String) (cause : String)
  | ReadSqlFile (path : String) (cause : String)
  | ExecuteSql (path : String) (cause : String)
  deriving DecidableEq, Repr

/-- tokio mpsc `SendError`; its `Display` output is the fixed string
"channel closed". -/
structure SendError where
  message : String
  deriving DecidableEq, Repr

/-- The bounded mpsc channel of envelopes (the Outbound Queue), seen as
state: FIFO buffer, capacity fixed at construction, and whether the
receiver end has been dropped. -/
structure Chan where
  capacity : Nat
  buffer : List GreptimeRequest
  closed : Bool
  deriving DecidableEq, Repr

/-- A fresh channel of the given capacity (`mpsc::channel(channel_size)`). -/
def Chan.new (channel_size : Nat) : Chan :=
  { capacity := channel_size, buffer := [], closed := false }

/-- `Sender::send`: fails exactly when the receiver has been dropped;
otherwise appends the message at the back of the FIFO buffer.  A full
buffer suspends the sender until capacity frees, it never fails, so the
result value does not depend on `capacity`. -/
def Chan.send (ch : Chan) (msg : GreptimeRequest) : Except SendError Chan :=
  if ch.closed then
    Except.error { message := "channel closed" }
  else
    Except.ok { ch with buffer := ch.buffer ++ [msg] }

/-- The fields of `StreamInserter` that carry data (`sender` and `join`
are modelled as explicit state / environment inputs alongside). -/
structure StreamInserter where
  auth_header : Option AuthHeader
  dbname : String
  deriving DecidableEq, Repr

/-- The gRPC call metadata attached in `StreamInserter::new`: the routing
hint, when configured, is inserted under the key "x-greptime-hints",
once, at call setup. -/
def callMetadataOfHint (hint : Option String) : List (String × String) :=
  match hint with
  | some h => [("x-greptime-hints", h)]
  | none => []

/-- `StreamInserter::new`: creates the bounded channel, spawns the pump
task (whose call metadata is `callMetadataOfHint hint`), and returns the
handle.  The source returns `Ok` unconditionally. -/
def StreamInserter.new (dbname : String) (auth_header : Option AuthHeader)
    (channel_size : Nat) (hint : Option String) :
    StreamInserter × Chan × List (String × String) :=
  ({ auth_header := auth_header, dbname := dbname },
   Chan.new channel_size,
   callMetadataOfHint hint)

/-- `StreamInserter::to_rpc_request`: wraps a payload with a header made
of a clone of the stored authorization and database name. -/
def StreamInserter.to_rpc_request (si : StreamInserter) (request : Request) :
    GreptimeRequest :=
  { header := some { authorization := si.auth_header, dbname := si.dbname },
    request := some request }

/-- `StreamInserter::insert` (deprecated): wraps the batches in
`InsertRequests`, builds the envelope, and sends it; a send failure is
mapped to `ClientStreaming` with the error's `Display` text. -/
def StreamInserter.insert (si : StreamInserter) (ch : Chan)
    (requests : List InsertRequest) : Except Error Chan :=
  match ch.send (si.to_rpc_request (Request.Inserts { inserts := requests })) with
  | Except.ok ch' => Except.ok ch'
  | Except.error e => Except.error (Error.ClientStreaming e.message)

/-- `StreamInserter::row_insert`: builds the envelope and sends it; a
send failure is mapped to `ClientStreaming` with the error's `Display`
text. -/
def StreamInserter.row_insert (si : StreamInserter) (ch : Chan)
    (requests : RowInsertRequests) : Except Error Chan :=
  match ch.send (si.to_rpc_request (Request.RowInserts requests)) with
  | Except.ok ch' => Except.ok ch'
  | Except.error e => Except.error (Error.ClientStreaming e.message)

/-- The outcome of a `finish` call.  `panic` marks `finish` itself
panicking (the source's `.unwrap()` on the join result); `err` is an
error returned as a value; `ok` is the affected-row count. -/
inductive FinishOutcome where
  | panic (msg : String)
  | err (e : Error)
  | ok (value : Nat)
  deriving DecidableEq, Repr

/-- Whether a `FinishOutcome` is an error value (not a panic, not a
success). -/
def FinishOutcome.isErr : FinishOutcome → Bool
  | FinishOutcome.err _ => true
  | _ => false

/-- Whether a `FinishOutcome` is a success. -/
def FinishOutcome.isOk : FinishOutcome → Bool
  | FinishOutcome.ok _ => true
  | _ => false

/-- `StreamInserter::finish`, as a function of the resolved join handle
(`self.join.await`): dropping `self.sender` closes the queue (visible as
the end-of-input event of `pumpTrace`); then
`self.join.await.unwrap()?` panics on a `JoinError` and propagates a
transport `Status` as an error; a present response payload yields its
row count, an absent one the `IllegalDatabaseResponse` error with
message "GreptimeResponse is empty". -/
def StreamInserter.finish
    (join : Except JoinError (Except Status TonicResponse)) : FinishOutcome :=
  match join with
  | Except.error _ => FinishOutcome.panic "called Result::unwrap() on an Err value"
  | Except.ok (Except.error status) => FinishOutcome.err (Error.TransportStatus status)
  | Except.ok (Except.ok resp) =>
    match resp.into_inner.response with
    | none => FinishOutcome.err (Error.IllegalDatabaseResponse "GreptimeResponse is empty")
    | some (ResponseOneof.AffectedRows rows) => FinishOutcome.ok rows.value

/-- The row count a present response payload carries. -/
def ResponseOneof.rowCount : ResponseOneof → Nat
  | ResponseOneof.AffectedRows rows => rows.value

/-- One event observed by the transport from the pump task: either an
envelope read off the queue, or the end-of-input signal seen once the
sender side has been dropped. -/
inductive TransportEvent where
  | envelope (g : GreptimeRequest)
  | endOfInput
  deriving DecidableEq, Repr

/-- What the transport observes from the Stream Pump Task once the
sender side is dropped by `finish`: the `ReceiverStream` yields the
buffered envelopes in FIFO order, then the stream ends. -/
def pumpTrace (ch : Chan) : List TransportEvent :=
  ch.buffer.map TransportEvent.envelope ++ [TransportEvent.endOfInput]

/-- A caller-side submit operation on the handle. -/
inductive SubmitOp where
  | insertOp (requests : List InsertRequest)
  | rowInsertOp (requests : RowInsertRequests)
  deriving DecidableEq, Repr

/-- The payload union value each submit operation builds. -/
def SubmitOp.payload : SubmitOp → Request
  | SubmitOp.insertOp requests => Request.Inserts { inserts := requests }
  | SubmitOp.rowInsertOp requests => Request.RowInserts requests

/-- Dispatch one submit operation to the source method it names. -/
def submitOp (si : StreamInserter) (ch : Chan) : SubmitOp → Except Error Chan
  | SubmitOp.insertOp requests => si.insert ch requests
  | SubmitOp.rowInsertOp requests => si.row_insert ch requests

/-- Run a sequence of submit operations, stopping at the first error. -/
def runSubmits (si : StreamInserter) (ch : Chan) :
    List SubmitOp → Except Error Chan
  | [] => Except.ok ch
  | op :: ops =>
    match submitOp si ch op with
    | Except.ok ch' => runSubmits si ch' ops
    | Except.error e => Except.error e

/-- `SqlLoader`: the MySQL pool is modelled by its `execute` behaviour,
mapping a SQL text to success or a driver error message. -/
structure SqlLoader where
  poolExecute : String → Except String Unit

/-- `SqlLoader::load`: reads the file at `path` (the read's outcome is
the environment input `readResult`), then executes its content on the
pool.  Returns the result paired with the list of SQL texts actually
executed against the pool. -/
def SqlLoader.load (l : SqlLoader) (path : String)
    (readResult : Except String String) :
    Except Error Unit × List String :=
  match readResult with
  | Except.error cause => (Except.error (Error.ReadSqlFile path cause), [])
  | Except.ok content =>
    match l.poolExecute content with
    | Except.error cause => (Except.error (Error.ExecuteSql path cause), [content])
    | Except.ok _ => (Except.ok (), [content])

/-! Helper lemmas -/

/-- Closed form of one submit operation: it fails (with the streaming
send error) exactly when the receiver has been dropped, and otherwise
appends the envelope of its payload to the queue. -/
theorem submitOp_eq (si : StreamInserter) (ch : Chan) (op : SubmitOp) :
    submitOp si ch op =
      (if ch.closed then Except.error (Error.ClientStreaming "channel closed")
       else Except.ok { ch with buffer := ch.buffer ++ [si.to_rpc_request op.payload] }) := by
  cases op with
  | insertOp requests =>
    obtain ⟨cap, buf, closed⟩ := ch
    cases closed <;> rfl
  | rowInsertOp requests =>
    obtain ⟨cap, buf, closed⟩ := ch
    cases closed <;> rfl

/-- A run of submit operations that all succeed leaves the channel with
the envelopes appended in submission order, capacity and closed flag
unchanged. -/
theorem runSubmits_ok_buffer (si : StreamInserter) :
    ∀ (ops : List SubmitOp) (ch0 ch : Chan),
      runSubmits si ch0 ops = Except.ok ch →
      ch = { ch0 with
             buffer := ch0.buffer ++ ops.map (fun op => si.to_rpc_request op.payload) } := by
  intro ops
  induction ops with
  | nil =>
    intro ch0 ch h
    simp only [runSubmits, Except.ok.injEq] at h
    simp [← h]
  | cons op ops ih =>
    intro ch0 ch h
    rw [runSubmits, submitOp_eq] at h
    obtain ⟨cap, buf, closed⟩ := ch0
    cases closed with
    | true => simp at h
    | false =>
      simp at h
      have := ih _ ch h
      simp [this, List.append_assoc]

/-! Claim theorems -/

/-- C1 counterexample: when the background task panicked before
producing an outcome, `finish` does not return an error value at all
(so in particular no `TaskJoinError`): its outcome is not an `err`. -/
theorem C1_counterexample_finish_not_error_on_join_failure :
    FinishOutcome.isErr (StreamInserter.finish (Except.error JoinError.panicked)) = false :=
  rfl

/-- C1 (amended): when the background Stream Pump Task panicked or was
cancelled before producing an outcome, `finish` itself panics (the
source unwraps the join result) instead of returning an error value. -/
theorem C1_finish_panics_on_task_crash :
    ∀ je : JoinError,
      StreamInserter.finish (Except.error je) =
        FinishOutcome.panic "called Result::unwrap() on an Err value" :=
  fun _ => rfl

/-- C2: when the task joins cleanly and the RPC succeeds but the
response carries no payload, `finish` fails with the
`IllegalDatabaseResponse` error; that error is distinct from every
transport-status error, and the outcome is never a success (so an
absent payload is not a row count of zero). -/
theorem C2_absent_payload_rejected_distinctly :
    StreamInserter.finish (Except.ok (Except.ok { inner := { response := none } })) =
      FinishOutcome.err (Error.IllegalDatabaseResponse "GreptimeResponse is empty") ∧
    (∀ status : Status,
      Error.IllegalDatabaseResponse "GreptimeResponse is empty" ≠
        Error.TransportStatus status) ∧
    FinishOutcome.isOk
      (StreamInserter.finish (Except.ok (Except.ok { inner := { response := none } }))) =
      false := by
  refine ⟨rfl, ?_, rfl⟩
  intro status h
  exact Error.noConfusion h

/-- C3: a submit call (`row_insert` or the deprecated `insert`) fails
with the streaming send error exactly when the queue's receiver has
been dropped; otherwise the envelope is enqueued at the back of the
queue and the call succeeds. -/
theorem C3_submit_errs_iff_receiver_dropped :
    ∀ (si : StreamInserter) (ch : Chan) (rr : RowInsertRequests)
      (ir : List InsertRequest),
      si.row_insert ch rr =
        (if ch.closed then Except.error (Error.ClientStreaming "channel closed")
         else Except.ok { ch with
           buffer := ch.buffer ++ [si.to_rpc_request (Request.RowInserts rr)] }) ∧
      si.insert ch ir =
        (if ch.closed then Except.error (Error.ClientStreaming "channel closed")
         else Except.ok { ch with
           buffer := ch.buffer ++ [si.to_rpc_request (Request.Inserts { inserts := ir })] }) := by
  intro si ch rr ir
  obtain ⟨cap, buf, closed⟩ := ch
  cases closed <;> exact ⟨rfl, rfl⟩

/-- C4: `to_rpc_request` is total and pure; the produced envelope's
header holds the stored authorization and database name, and its
payload field is present and equals the given payload. -/
theorem C4_to_rpc_request_builds_full_envelope :
    ∀ (si : StreamInserter) (request : Request),
      (si.to_rpc_request request).header =
        some { authorization := si.auth_header, dbname := si.dbname } ∧
      (si.to_rpc_request request).request = some request :=
  fun _ _ => ⟨rfl, rfl⟩

/-- C5: when the task joins cleanly, the RPC succeeds and the response
carries an affected-rows payload, `finish` returns exactly that value. -/
theorem C5_finish_returns_affected_rows :
    ∀ value : Nat,
      StreamInserter.finish (Except.ok (Except.ok
          { inner := { response := some (ResponseOneof.AffectedRows { value := value }) } })) =
        FinishOutcome.ok value :=
  fun _ => rfl

/-- C6: after N submit calls that all succeed on a freshly constructed
queue, the transport observes exactly the N envelopes, in submission
order, followed by the end-of-input signal. -/
theorem C6_fifo_order_preserved :
    ∀ (si : StreamInserter) (channel_size : Nat) (ops : List SubmitOp) (ch : Chan),
      runSubmits si (Chan.new channel_size) ops = Except.ok ch →
      pumpTrace ch =
        (ops.map (fun op => si.to_rpc_request op.payload)).map TransportEvent.envelope ++
          [TransportEvent.endOfInput] := by
  intro si channel_size ops ch h
  have hb := runSubmits_ok_buffer si ops (Chan.new channel_size) ch h
  subst hb
  simp [pumpTrace, Chan.new]

/-- C6 witness: two successful row submissions on a fresh queue of
capacity 4 yield exactly their two envelopes, in order, before the
end-of-input signal. -/
theorem C6_fifo_order_preserved_witness :
    pumpTrace
      { capacity := 4,
        buffer := [ { header := some { authorization := none, dbname := "public" },
                      request := some (Request.RowInserts { tag := 1 }) },
                    { header := some { authorization := none, dbname := "public" },
                      request := some (Request.RowInserts { tag := 2 }) } ],
        closed := false } =
      ([SubmitOp.rowInsertOp { tag := 1 }, SubmitOp.rowInsertOp { tag := 2 }].map
          (fun op =>
            StreamInserter.to_rpc_request { auth_header := none, dbname := "public" }
              op.payload)).map TransportEvent.envelope ++
        [TransportEvent.endOfInput] :=
  C6_fifo_order_preserved { auth_header := none, dbname := "public" } 4
    [SubmitOp.rowInsertOp { tag := 1 }, SubmitOp.rowInsertOp { tag := 2 }]
    { capacity := 4,
      buffer := [ { header := some { authorization := none, dbname := "public" },
                    request := some (Request.RowInserts { tag := 1 }) },
                  { header := some { authorization := none, dbname := "public" },
                    request := some (Request.RowInserts { tag := 2 }) } ],
      closed := false }
    rfl

/-- C7: a configured routing hint is attached exactly once, as the call
metadata entry under key "x-greptime-hints", at call setup; with no
hint the call metadata is empty; and every per-envelope header is the
authorization/dbname record regardless of the hint, so a hint never
appears in an envelope header. -/
theorem C7_hint_attached_once_at_setup :
    ∀ (dbname : String) (auth : Option AuthHeader) (channel_size : Nat) (h : String),
      (StreamInserter.new dbname auth channel_size (some h)).2.2 =
        [("x-greptime-hints", h)] ∧
      (StreamInserter.new dbname auth channel_size none).2.2 = [] ∧
      ∀ (hint : Option String) (request : Request),
        ((StreamInserter.new dbname auth channel_size hint).1.to_rpc_request request).header =
          some { authorization := auth, dbname := dbname } :=
  fun _ _ _ _ => ⟨rfl, rfl, fun _ _ => rfl⟩

/-- C8: over any sequence of submit operations on a handle, every
envelope produced carries the same header: the authorization and
database name fixed at construction. -/
theorem C8_headers_constant_for_handle_lifetime :
    ∀ (si : StreamInserter) (ops : List SubmitOp),
      ops.map (fun op => (si.to_rpc_request op.payload).header) =
        List.replicate ops.length
          (some { authorization := si.auth_header, dbname := si.dbname }) := by
  intro si ops
  induction ops with
  | nil => rfl
  | cons op ops ih =>
    simp [StreamInserter.to_rpc_request, List.replicate_succ, ih]

/-- C9: given a clean join and a successful RPC, any present response
payload yields success with its row count (the response union has a
single variant), and only an absent payload makes `finish` fail. -/
theorem C9_present_payload_always_succeeds :
    (∀ body : ResponseOneof,
      StreamInserter.finish (Except.ok (Except.ok { inner := { response := some body } })) =
        FinishOutcome.ok body.rowCount) ∧
    FinishOutcome.isErr
      (StreamInserter.finish (Except.ok (Except.ok { inner := { response := none } }))) =
      true := by
  refine ⟨?_, rfl⟩
  intro body
  cases body with
  | AffectedRows rows => rfl

/-- C10: when reading the SQL file fails, `load` returns the read error
and executes no SQL statement against the pool. -/
theorem C10_load_executes_nothing_on_read_failure :
    ∀ (l : SqlLoader) (path cause : String),
      l.load path (Except.error cause) =
        (Except.error (Error.ReadSqlFile path cause), []) :=
  fun _ _ _ => rfl

end GreptimeIngester
